import Mathlib

/-!
Shallow embedding of the order-fulfillment core of the serverless e-commerce
backend: the order validator (`validate_order_handler/app.py`) and the payment
processor / refund handler (`process_payment_handler/app.py`).

Modelling conventions:
* Python dict fields that may be absent or `None` are modelled by `DictField`
  (absent / null / value).  The `items` field may additionally hold a non-list
  value, hence its dedicated `ItemsField` type.
* Decimal amounts (Python floats holding currency values) are modelled as `Rat`;
  the tolerance literal `0.01` becomes the exact rational `1/100`.
* The result of Python's `int(item['quantity'])` coercion is modelled by
  `QParse`: either it raises `ValueError`/`TypeError` (`QParse.err`) or returns
  an integer (`QParse.ok n`; Python truncation of non-integral numbers is folded
  into the resulting integer).  Item prices are modelled as numeric when
  present (`Option Rat`); malformed non-numeric price values are outside the
  model.
* The DynamoDB catalog is a function `Catalog : String → LookupResult`: a
  lookup either returns a product record, reports "not found", or raises a
  transient error (the `except` path of `validate_items`).
* Each Python f-string error message is modelled by a `VError` constructor
  carrying exactly the values interpolated into that message.
* Exceptions raised by a Lambda handler are modelled by `Except.error`;
  a normal return is `Except.ok`.
-/

namespace ECom

/-- A top-level dict field: absent from the dict, present but `None`, or a value. -/
inductive DictField (α : Type) where
  | absent : DictField α
  | null : DictField α
  | val : α → DictField α
deriving DecidableEq

/-- Result of the Python coercion `int(x)` on the raw `quantity` value:
`err` models a raised `ValueError`/`TypeError`, `ok n` a successful coercion. -/
inductive QParse where
  | err : QParse
  | ok : Int → QParse
deriving DecidableEq

/-- One order item: keys `productId`, `quantity`, `price`, each possibly absent. -/
structure Item where
  productId : Option String
  quantity : Option QParse
  price : Option Rat
deriving DecidableEq

/-- The `items` field of the envelope: absent, `None`, a non-list value, or a list. -/
inductive ItemsField where
  | absent : ItemsField
  | null : ItemsField
  | notList : ItemsField
  | list : List Item → ItemsField
deriving DecidableEq

/-- A catalog record as returned by DynamoDB: optional `price` and `stock`. -/
structure Product where
  price : Option Rat
  stock : Option Int
deriving DecidableEq

/-- Outcome of `products_table.get_item`: record found, no `Item` in the
response, or a raised (transient) error with its message. -/
inductive LookupResult where
  | found : Product → LookupResult
  | notFound : LookupResult
  | fault : String → LookupResult

/-- The product catalog backing `products_table`. -/
def Catalog : Type := String → LookupResult

/-- Validation error messages.  Each constructor stands for one f-string in
`validate_order_handler/app.py` and carries the values interpolated into it. -/
inductive VError where
  | missingField : String → VError
  | itemsNotArray : VError
  | emptyItems : VError
  | missingProductId : Nat → VError
  | missingQuantity : Nat → VError
  | invalidQuantity : Nat → VError
  | nonPositiveQuantity : Nat → VError
  | productNotFound : Nat → String → VError
  | insufficientStock : (itemNum : Nat) → (pid : String) → (requested : Int) → (available : Int) → VError
  | priceMismatch : (itemNum : Nat) → (pid : String) → (expected : Rat) → (received : Rat) → VError
  | lookupError : Nat → String → VError
  | totalMismatch : (expected : Rat) → (received : Rat) → VError
  | totalCalcError : VError
deriving DecidableEq

/-- The `validationResult` object built by the validator handler. -/
structure ValidationResult where
  isValid : Bool
  errors : List VError
  validatedAt : String
  validatedBy : String
deriving DecidableEq

/-- The `paymentResult` dict built by `process_payment` (the informational
`message` string, a human-readable echo of status/reason/amount, is not
modelled). `failureReason` is `none` when the key is absent (success path). -/
structure PaymentResult where
  status : String
  transactionId : String
  processedAt : String
  provider : String
  failureReason : Option String
  amount : Rat
  currency : String
deriving DecidableEq

/-- The dict returned by `refund_payment` (again without the `message` echo). -/
structure RefundResult where
  status : String
  refundId : String
  originalTransactionId : String
  refundedAt : String
  amount : Rat
deriving DecidableEq

/-- The order envelope threaded through the Step Functions stages. -/
structure Envelope where
  orderId : DictField String
  userId : DictField String
  items : ItemsField
  totalAmount : DictField Rat
  validationResult : Option ValidationResult
  paymentResult : Option PaymentResult
deriving DecidableEq

/-- Python `field not in order or order[field] is None`. -/
def fieldMissing {α : Type} : DictField α → Bool
  | .absent => true
  | .null => true
  | .val _ => false

/-- Same check for the `items` field. -/
def itemsMissing : ItemsField → Bool
  | .absent => true
  | .null => true
  | .notList => false
  | .list _ => false

/-- `validate_required_fields` (app.py lines 103-127): one loop appending one
"Missing required field" error per absent-or-None field, in the fixed order
orderId, userId, items, totalAmount; then, when the `items` key is present,
the array-shape checks. -/
def validate_required_fields (order : Envelope) : List VError :=
  ((if fieldMissing order.orderId then [VError.missingField "orderId"] else []) ++
   (if fieldMissing order.userId then [VError.missingField "userId"] else []) ++
   (if itemsMissing order.items then [VError.missingField "items"] else []) ++
   (if fieldMissing order.totalAmount then [VError.missingField "totalAmount"] else [])) ++
  (match order.items with
   | .absent => []
   | .null => [VError.itemsNotArray]
   | .notList => [VError.itemsNotArray]
   | .list [] => [VError.emptyItems]
   | .list (_ :: _) => [])

/-- The comparison tolerance `0.01` (one cent) used by both price checks. -/
def tolerance : Rat := 1 / 100

/-- The part of the `validate_items` loop body inside the `try` block
(app.py lines 162-196): catalog lookup, stock check, price check.  A raised
lookup error is caught by the `except` and becomes this item's own error. -/
def item_catalog_checks (cat : Catalog) (n : Nat) (pid : String) (q : Int)
    (claimedPrice : Option Rat) : List VError :=
  match cat pid with
  | .fault msg => [VError.lookupError n msg]
  | .notFound => [VError.productNotFound n pid]
  | .found product =>
    (match product.stock with
     | some available =>
       if available < q then [VError.insufficientStock n pid q available] else []
     | none => []) ++
    (match claimedPrice with
     | some orderPrice =>
       let dbPrice := product.price.getD 0
       if |dbPrice - orderPrice| > tolerance then
         [VError.priceMismatch n pid dbPrice orderPrice]
       else []
     | none => [])

/-- One iteration of the `validate_items` loop (app.py lines 140-196) for the
item at 1-based position `n`.  Missing `productId`/`quantity` and an
unparseable quantity each `continue` after their error; a quantity that parses
to a non-positive integer appends its error and falls through to the catalog
checks (the source has no `continue` on that branch). -/
def validate_item (cat : Catalog) (n : Nat) (item : Item) : List VError :=
  match item.productId with
  | none => [VError.missingProductId n]
  | some pid =>
    match item.quantity with
    | none => [VError.missingQuantity n]
    | some .err => [VError.invalidQuantity n]
    | some (.ok q) =>
      (if q ≤ 0 then [VError.nonPositiveQuantity n] else []) ++
      item_catalog_checks cat n pid q item.price

/-- The `enumerate(items)` loop of `validate_items` (app.py lines 138-197),
transcribed recursively: the item at 1-based position `n` contributes its
errors, then the loop continues at `n + 1`.  The single `errors` list grows
left-to-right, exactly as the repeated `errors.append` calls do. -/
def validate_items_from (cat : Catalog) (n : Nat) : List Item → List VError
  | [] => []
  | item :: rest => validate_item cat n item ++ validate_items_from cat (n + 1) rest

/-- `validate_items` (app.py lines 130-198): run the loop from position 1. -/
def validate_items (cat : Catalog) (items : List Item) : List VError :=
  validate_items_from cat 1 items

/-- The `calculated_total` loop of `validate_total_amount` (app.py lines
208-214), transcribed recursively with the running accumulator: add
`price * quantity` for items carrying both keys; `none` models an exception
escaping to the surrounding `except` (e.g. `int(quantity)` raising). -/
def computeTotalFrom (acc : Rat) : List Item → Option Rat
  | [] => some acc
  | item :: rest =>
    match item.price, item.quantity with
    | some p, some (.ok q) => computeTotalFrom (acc + p * (q : Rat)) rest
    | some _, some .err => none
    | _, _ => computeTotalFrom acc rest

/-- The recomputed total: the loop starting from `calculated_total = 0.0`. -/
def computeTotal (items : List Item) : Option Rat :=
  computeTotalFrom 0 items

/-- `float(order.get('totalAmount', 0))`: an absent key defaults to `0`, a
`None` value makes `float` raise (`none`). -/
def totalAmountVal (order : Envelope) : Option Rat :=
  match order.totalAmount with
  | .absent => some 0
  | .null => none
  | .val q => some q

/-- `order.get('items', [])`, coerced to the list of items.  The non-list
cases never reach the item loops: phases 2 and 3 only run after
`validate_required_fields` returned no errors, which forces a non-empty list. -/
def Envelope.itemsList (order : Envelope) : List Item :=
  match order.items with
  | .list l => l
  | _ => []

/-- `validate_total_amount` (app.py lines 201-228): recompute the total,
compare with the claimed amount under the 0.01 tolerance; any exception inside
the `try` yields the single "Error calculating total" error. -/
def validate_total_amount (order : Envelope) : List VError :=
  match computeTotal order.itemsList, totalAmountVal order with
  | some calculated, some claimed =>
    if |calculated - claimed| > tolerance then [VError.totalMismatch calculated claimed]
    else []
  | _, _ => [VError.totalCalcError]

/-- The three-phase error computation of the validator `lambda_handler`
(app.py lines 62-74): phase 2 and phase 3 each run only when the accumulated
list is still empty. -/
def validation_errors (cat : Catalog) (order : Envelope) : List VError :=
  let errs1 := validate_required_fields order
  let errs2 := if errs1.isEmpty then errs1 ++ validate_items cat order.itemsList else errs1
  if errs2.isEmpty then errs2 ++ validate_total_amount order else errs2

/-- The Lambda context object (only the fields the handlers read). -/
structure Context where
  requestId : String
  functionName : String

/-- The validator `lambda_handler` (app.py lines 32-100): on a non-empty error
list it raises `ValueError` (so Step Functions can catch it), otherwise it
returns the input envelope with `validationResult` merged in. -/
def validate_lambda_handler (cat : Catalog) (ctx : Context) (event : Envelope) :
    Except String Envelope :=
  let errs := validation_errors cat event
  let vr : ValidationResult :=
    { isValid := errs.isEmpty, errors := errs,
      validatedAt := ctx.requestId, validatedBy := ctx.functionName }
  if errs.isEmpty then
    Except.ok { event with validationResult := some vr }
  else
    Except.error "Order validation failed"

/-- The fixed list of simulated failure reasons (process_payment_handler
app.py lines 137-143). -/
def failure_reasons : List String :=
  ["Insufficient funds", "Card declined", "Payment gateway timeout",
   "Invalid card details", "Bank authorization failed"]

/-- The nondeterministic inputs of one `process_payment` call: the
`random.random() < 0.90` draw, the `random.choice` index into
`failure_reasons`, the millisecond timestamp string read for the transaction
id, and the `datetime.utcnow()` string. -/
structure Gateway where
  isSuccessful : Bool
  reasonIndex : Fin 5
  timestamp : String
  now : String

/-- `generate_transaction_id` (app.py lines 159-175), with the SHA-256 hex
digest supplied as an abstract collaborator `hashHex` (the hash internals live
in `hashlib`, outside this program). -/
def generate_transaction_id (hashHex : String → String)
    (order_id user_id timestamp : String) : String :=
  "txn-" ++ (hashHex (order_id ++ "-" ++ user_id ++ "-" ++ timestamp)).take 16

/-- `process_payment` (app.py lines 99-156): generate a transaction id, then
return the success dict (no `failureReason` key) or the failure dict carrying
the chosen reason. -/
def process_payment (hashHex : String → String) (g : Gateway)
    (order_id user_id : String) (amount : Rat) : PaymentResult :=
  let tid := generate_transaction_id hashHex order_id user_id g.timestamp
  if g.isSuccessful then
    { status := "success", transactionId := tid, processedAt := g.now,
      provider := "mock-payment-gateway", failureReason := none,
      amount := amount, currency := "USD" }
  else
    { status := "failed", transactionId := tid, processedAt := g.now,
      provider := "mock-payment-gateway",
      failureReason := some (failure_reasons.get g.reasonIndex),
      amount := amount, currency := "USD" }

/-- `event.get('totalAmount', 0)` as the float amount handed to
`process_payment`: an absent key defaults to `0`; a `None` value makes the
`${amount:.2f}` formatting inside `process_payment` raise `TypeError`
(`none`). -/
def getAmount : DictField Rat → Option Rat
  | .absent => some 0
  | .null => none
  | .val q => some q

/-- `event.get('orderId')` / `event.get('userId')` as the string interpolated
into the transaction-id hash input (`None` formats as "None"). -/
def fieldStr : DictField String → String
  | .val s => s
  | .absent => "None"
  | .null => "None"

/-- The payment `lambda_handler` (app.py lines 34-96): run `process_payment`,
merge `paymentResult` into the envelope, return it on status `success`,
raise `ValueError` otherwise.  A `None` `totalAmount` surfaces as a raised
`TypeError` (from the amount formatting inside `process_payment` on the
success path, or as the domain `ValueError` on the failure path) — modelled
as an error before the outcome branch. -/
def process_payment_lambda_handler (hashHex : String → String) (g : Gateway)
    (event : Envelope) : Except String Envelope :=
  match getAmount event.totalAmount with
  | none => Except.error "unsupported format string passed to NoneType"
  | some amount =>
    let pr := process_payment hashHex g (fieldStr event.orderId) (fieldStr event.userId) amount
    if pr.status = "success" then
      Except.ok { event with paymentResult := some pr }
    else
      Except.error "Payment failed"

/-- `refund_payment` (app.py lines 178-203): unconditionally build the refund
dict; the refund id drops the first four characters (`txn-`) of the
transaction id and prepends `ref-`. -/
def refund_payment (now : String) (transaction_id : String) (amount : Rat) :
    RefundResult :=
  { status := "refunded",
    refundId := "ref-" ++ transaction_id.drop 4,
    originalTransactionId := transaction_id,
    refundedAt := now,
    amount := amount }

/-! ## Theorems -/

/-- Dropping the four characters of the `txn-` tag from a tagged identifier
recovers the suffix. -/
theorem drop_txn_tag (s : String) : ("txn-" ++ s).drop 4 = s := by
  rw [String.drop_eq, String.data_append]
  show String.mk (List.drop 4 ("txn-".data ++ s.data)) = s
  have h : ("txn-".data).length = 4 := rfl
  rw [← h, List.drop_left]

/-- C1: The validator runs its three phases in order — structural check,
per-item catalog check, total reconciliation — and if phase N produces any
errors, phase N+1 does not run; errors never accumulate across phases, only
within a single phase. -/
theorem validator_phases_short_circuit (cat : Catalog) (order : Envelope) :
    validation_errors cat order =
      (if validate_required_fields order ≠ [] then validate_required_fields order
       else if validate_items cat order.itemsList ≠ [] then
         validate_items cat order.itemsList
       else validate_total_amount order) := by
  rcases h1 : validate_required_fields order with _ | ⟨e, es⟩
  · rcases h2 : validate_items cat order.itemsList with _ | ⟨f, fs⟩
    · simp [validation_errors, h1, h2]
    · simp [validation_errors, h1, h2]
  · simp [validation_errors, h1]

/-- C4: Every paymentResult produced by `process_payment` has a status equal
to one of the two outcome values ("success"/"failed", the spec's
succeeded/failed), carries a failureReason iff the status is the failure one,
and any present reason is drawn from the fixed five-element
`failure_reasons` enumeration. -/
theorem payment_result_status_and_reason (hashHex : String → String)
    (g : Gateway) (oid uid : String) (amount : Rat) :
    ((process_payment hashHex g oid uid amount).status = "success" ∨
      (process_payment hashHex g oid uid amount).status = "failed") ∧
    ((process_payment hashHex g oid uid amount).failureReason.isSome ↔
      (process_payment hashHex g oid uid amount).status = "failed") ∧
    (∀ r, (process_payment hashHex g oid uid amount).failureReason = some r →
      r ∈ failure_reasons) := by
  cases hg : g.isSuccessful
  · refine ⟨Or.inr ?_, ?_, ?_⟩
    · simp [process_payment, hg]
    · simp [process_payment, hg]
    · intro r hr
      simp [process_payment, hg] at hr
      rw [← hr]
      exact List.getElem_mem _
  · refine ⟨Or.inl ?_, ?_, ?_⟩
    · simp [process_payment, hg]
    · simp only [process_payment, hg, if_true]
      constructor
      · intro h
        exact absurd h (by simp)
      · intro h
        exact absurd h (by decide)
    · intro r hr
      simp [process_payment, hg] at hr

/-- C9: For every transaction identifier and amount, `refund_payment` returns
a result with status "refunded", refundId equal to "ref-" followed by the
transaction identifier with its leading four characters (the "txn-" tag)
removed, originalTransactionId equal to the input identifier, and amount
equal to the input amount; the refund never fails.  The second conjunct
instantiates the tag swap: a "txn-"-tagged identifier yields the same suffix
under the "ref-" tag. -/
theorem refund_payment_always_succeeds (now tid : String) (amount : Rat) :
    refund_payment now tid amount =
      { status := "refunded", refundId := "ref-" ++ tid.drop 4,
        originalTransactionId := tid, refundedAt := now, amount := amount } ∧
    (refund_payment now ("txn-" ++ tid) amount).refundId = "ref-" ++ tid := by
  refine ⟨rfl, ?_⟩
  show "ref-" ++ ("txn-" ++ tid).drop 4 = "ref-" ++ tid
  rw [drop_txn_tag]

/-- C2: Both decimal comparisons — an item's claimed unit price against the
catalog price, and the claimed total against the recomputed sum — report a
mismatch error carrying both values exactly when the absolute difference
exceeds the 0.01 tolerance; a difference of at most 0.01 never flags. -/
theorem tolerance_comparisons (cat : Catalog) (n : Nat) (pid : String) (q : Int)
    (product : Product) (claimed : Rat) (order : Envelope)
    (calculated total : Rat)
    (hfound : cat pid = LookupResult.found product)
    (hcalc : computeTotal order.itemsList = some calculated)
    (htot : totalAmountVal order = some total) :
    ((|product.price.getD 0 - claimed| > tolerance →
       VError.priceMismatch n pid (product.price.getD 0) claimed ∈
         item_catalog_checks cat n pid q (some claimed)) ∧
     (|product.price.getD 0 - claimed| ≤ tolerance →
       ∀ m pid2 a b, VError.priceMismatch m pid2 a b ∉
         item_catalog_checks cat n pid q (some claimed))) ∧
    validate_total_amount order =
      (if |calculated - total| > tolerance then
        [VError.totalMismatch calculated total]
      else []) := by
  refine ⟨⟨?_, ?_⟩, ?_⟩
  · intro hgt
    rcases hst : product.stock with _ | avail <;>
      simp [item_catalog_checks, hfound, hst, hgt]
  · intro hle m pid2 a b hmem
    have hngt : ¬(|product.price.getD 0 - claimed| > tolerance) := not_lt.mpr hle
    rcases hst : product.stock with _ | avail
    · simp [item_catalog_checks, hfound, hst, hngt] at hmem
    · by_cases hq : avail < q <;>
        simp [item_catalog_checks, hfound, hst, hngt, hq] at hmem
  · simp [validate_total_amount, hcalc, htot]

/-- Catalog used by the concrete witnesses and counterexamples: one product
`prod-1` with price 10 and no tracked stock, one product `prod-2` with price
10 and stock 5; everything else is not found. -/
def wCatalog : Catalog := fun pid =>
  if pid = "prod-1" then LookupResult.found { price := some 10, stock := none }
  else if pid = "prod-2" then LookupResult.found { price := some 10, stock := some 5 }
  else LookupResult.notFound

/-- Envelope used by the C2 witness: one `prod-1` item, quantity 2, claimed
unit price 12, claimed total 24. -/
def wOrder2 : Envelope :=
  { orderId := .val "order-1", userId := .val "user-1",
    items := .list [{ productId := some "prod-1", quantity := some (.ok 2),
                      price := some 12 }],
    totalAmount := .val 24, validationResult := none, paymentResult := none }

/-- The catalog price 10 differs from the claimed price 12 by more than the
tolerance. -/
theorem ten_twelve_exceed_tol : |(10 : Rat) - 12| > tolerance := by
  have h : (10 : Rat) - 12 = -2 := by norm_num
  rw [h, abs_neg, abs_of_pos (by norm_num : (0 : Rat) < 2), tolerance]
  norm_num

/-- Witness for the C2 theorem at catalog price 10 vs claimed 12. -/
theorem tolerance_comparisons_witness :
    wCatalog "prod-1" = LookupResult.found { price := some 10, stock := none } ∧
    computeTotal wOrder2.itemsList = some 24 ∧
    totalAmountVal wOrder2 = some 24 ∧
    VError.priceMismatch 1 "prod-1" 10 12 ∈
      item_catalog_checks wCatalog 1 "prod-1" 2 (some 12) := by
  refine ⟨rfl, ?_, rfl, ?_⟩
  · norm_num [computeTotal, computeTotalFrom, wOrder2, Envelope.itemsList]
  · exact (tolerance_comparisons wCatalog 1 "prod-1" 2
      { price := some 10, stock := none } 12 wOrder2 24 24 rfl
      (by norm_num [computeTotal, computeTotalFrom, wOrder2, Envelope.itemsList])
      rfl).1.1 ten_twelve_exceed_tol

/-- C3 counterexample: an item whose quantity parses to 0 (not a positive
integer) gets its "Quantity must be positive" error, but the remaining checks
are not skipped — the catalog lookup and price check still run, producing a
price-mismatch error for the same item. -/
theorem nonpositive_quantity_not_skipped_cex :
    validate_items wCatalog
        [{ productId := some "prod-1", quantity := some (.ok 0),
           price := some 12 }] =
      [VError.nonPositiveQuantity 1, VError.priceMismatch 1 "prod-1" 10 12] ∧
    validate_items wCatalog
        [{ productId := some "prod-1", quantity := some (.ok 0),
           price := some 12 }] ≠
      [VError.nonPositiveQuantity 1] := by
  have h : validate_items wCatalog
      [{ productId := some "prod-1", quantity := some (.ok 0),
         price := some 12 }] =
      [VError.nonPositiveQuantity 1, VError.priceMismatch 1 "prod-1" 10 12] := by
    simp [validate_items, validate_items_from, validate_item,
      item_catalog_checks, wCatalog, ten_twelve_exceed_tol]
  refine ⟨h, ?_⟩
  rw [h]
  simp

/-- C3 amended: an item whose quantity fails to parse as an integer is given
its error and all remaining checks for that item are skipped; an item whose
quantity parses to a non-positive integer is given its error but the
remaining checks (catalog lookup, stock, price) still run. -/
theorem quantity_check_amended (cat : Catalog) (n : Nat) (item : Item)
    (pid : String) (hpid : item.productId = some pid) :
    (item.quantity = some QParse.err →
      validate_item cat n item = [VError.invalidQuantity n]) ∧
    (∀ q : Int, q ≤ 0 → item.quantity = some (QParse.ok q) →
      validate_item cat n item =
        VError.nonPositiveQuantity n :: item_catalog_checks cat n pid q item.price) := by
  constructor
  · intro hq
    simp [validate_item, hpid, hq]
  · intro q hq hqty
    simp [validate_item, hpid, hqty, hq]

/-- Witness for the C3 amended theorem at the quantity-0 item. -/
theorem quantity_check_amended_witness :
    ({ productId := some "prod-1", quantity := some (.ok 0),
       price := some 12 } : Item).productId = some "prod-1" ∧
    (0 : Int) ≤ 0 ∧
    validate_item wCatalog 1
        { productId := some "prod-1", quantity := some (.ok 0),
          price := some 12 } =
      VError.nonPositiveQuantity 1 ::
        item_catalog_checks wCatalog 1 "prod-1" 0 (some 12) :=
  ⟨rfl, by decide,
    (quantity_check_amended wCatalog 1
      { productId := some "prod-1", quantity := some (.ok 0), price := some 12 }
      "prod-1" rfl).2 0 (by decide) rfl⟩

/-- Envelope whose `items` key holds `None`: every other required field is
present and non-null. -/
def cexNullItems : Envelope :=
  { orderId := .val "order-1", userId := .val "user-1", items := .null,
    totalAmount := .val 10, validationResult := none, paymentResult := none }

/-- C5 counterexample: a `None` `items` field yields two errors — the
missing-field error and the not-an-array error — although `items` is the only
missing/invalid field, so "exactly one error message per missing/invalid
field" fails. -/
theorem null_items_double_error_cex :
    validate_required_fields cexNullItems =
      [VError.missingField "items", VError.itemsNotArray] ∧
    fieldMissing cexNullItems.orderId = false ∧
    fieldMissing cexNullItems.userId = false ∧
    fieldMissing cexNullItems.totalAmount = false ∧
    (validate_required_fields cexNullItems).length ≠ 1 := by decide

/-- C5 amended: for every envelope with a missing/null required field, the
structural check reports exactly one "Missing required field" error per
missing/null field — plus, when the `items` value is `None` or a non-list,
one additional "Items must be an array" error (so a null `items` yields two
errors) — and the verdict is invalid (`isValid = (error count == 0)` is
false). -/
theorem required_fields_amended (cat : Catalog) (order : Envelope)
    (h : (fieldMissing order.orderId || fieldMissing order.userId ||
          itemsMissing order.items || fieldMissing order.totalAmount) = true) :
    ((validate_required_fields order).count (VError.missingField "orderId") =
      if fieldMissing order.orderId then 1 else 0) ∧
    ((validate_required_fields order).count (VError.missingField "userId") =
      if fieldMissing order.userId then 1 else 0) ∧
    ((validate_required_fields order).count (VError.missingField "items") =
      if itemsMissing order.items then 1 else 0) ∧
    ((validate_required_fields order).count (VError.missingField "totalAmount") =
      if fieldMissing order.totalAmount then 1 else 0) ∧
    ((validate_required_fields order).count VError.itemsNotArray =
      if order.items = ItemsField.null ∨ order.items = ItemsField.notList
       then 1 else 0) ∧
    (validation_errors cat order).isEmpty = false := by
  obtain ⟨oid, uid, its, tot, vr, pr⟩ := order
  rcases oid with _ | _ | ov <;> rcases uid with _ | _ | uv <;>
    rcases tot with _ | _ | tv <;>
    rcases its with _ | _ | _ | ⟨_ | ⟨it, rest⟩⟩ <;>
    simp_all [validate_required_fields, validation_errors, fieldMissing,
      itemsMissing, List.count_append, List.count_cons]

/-- Witness for the C5 amended theorem at an envelope missing `orderId`. -/
theorem required_fields_amended_witness :
    (fieldMissing (Envelope.mk .absent (.val "user-1")
        (.list [{ productId := some "prod-1", quantity := some (.ok 1),
                  price := none }]) (.val 10) none none).orderId ||
      fieldMissing (Envelope.mk .absent (.val "user-1")
        (.list [{ productId := some "prod-1", quantity := some (.ok 1),
                  price := none }]) (.val 10) none none).userId ||
      itemsMissing (Envelope.mk .absent (.val "user-1")
        (.list [{ productId := some "prod-1", quantity := some (.ok 1),
                  price := none }]) (.val 10) none none).items ||
      fieldMissing (Envelope.mk .absent (.val "user-1")
        (.list [{ productId := some "prod-1", quantity := some (.ok 1),
                  price := none }]) (.val 10) none none).totalAmount) = true ∧
    (validation_errors wCatalog (Envelope.mk .absent (.val "user-1")
        (.list [{ productId := some "prod-1", quantity := some (.ok 1),
                  price := none }]) (.val 10) none none)).isEmpty = false :=
  ⟨by decide,
    (required_fields_amended wCatalog
      (Envelope.mk .absent (.val "user-1")
        (.list [{ productId := some "prod-1", quantity := some (.ok 1),
                  price := none }]) (.val 10) none none)
      (by decide)).2.2.2.2.2⟩

/-- Splitting the item loop: the errors of a concatenated item list are the
errors of the first part followed by the errors of the second part evaluated
at the shifted positions. -/
theorem validate_items_from_append (cat : Catalog) (pre post : List Item) :
    ∀ n, validate_items_from cat n (pre ++ post) =
      validate_items_from cat n pre ++
        validate_items_from cat (n + pre.length) post := by
  induction pre with
  | nil => intro n; simp [validate_items_from]
  | cons it rest ih =>
    intro n
    have h : n + 1 + rest.length = n + (it :: rest).length := by
      simp [List.length_cons]
      omega
    calc validate_items_from cat n ((it :: rest) ++ post)
        = validate_item cat n it ++
            validate_items_from cat (n + 1) (rest ++ post) := rfl
      _ = validate_item cat n it ++
            (validate_items_from cat (n + 1) rest ++
              validate_items_from cat (n + 1 + rest.length) post) := by
          rw [ih (n + 1)]
      _ = (validate_item cat n it ++ validate_items_from cat (n + 1) rest) ++
            validate_items_from cat (n + 1 + rest.length) post := by
          rw [List.append_assoc]
      _ = validate_items_from cat n (it :: rest) ++
            validate_items_from cat (n + (it :: rest).length) post := by
          rw [h]
          rfl

/-- C6: Within the per-item catalog check, an insufficient-stock finding
yields an error carrying the requested and available quantities but is
non-fatal for that item (its price check still runs); a per-item lookup fault
is recorded as that item's own error; and the errors of a list of items are
exactly the per-item errors accumulated in item order (so no item aborts the
evaluation of the others). -/
theorem per_item_error_isolation (cat : Catalog) (n : Nat)
    (pre post : List Item) (pid pid2 : String) (q avail : Int)
    (product : Product) (claimed : Rat) (msg : String)
    (hfound : cat pid = LookupResult.found product)
    (hstock : product.stock = some avail) (hlt : avail < q)
    (hfault : cat pid2 = LookupResult.fault msg) :
    (validate_items_from cat n (pre ++ post) =
      validate_items_from cat n pre ++
        validate_items_from cat (n + pre.length) post) ∧
    (item_catalog_checks cat n pid q (some claimed) =
      VError.insufficientStock n pid q avail ::
        (if |product.price.getD 0 - claimed| > tolerance then
          [VError.priceMismatch n pid (product.price.getD 0) claimed]
        else [])) ∧
    (item_catalog_checks cat n pid2 q (some claimed) =
      [VError.lookupError n msg]) := by
  refine ⟨validate_items_from_append cat pre post n, ?_, ?_⟩
  · simp [item_catalog_checks, hfound, hstock, hlt]
  · simp [item_catalog_checks, hfault]

/-- Catalog with one in-stock product and one product whose lookup raises a
transient error. -/
def wCatalogFault : Catalog := fun pid =>
  if pid = "prod-2" then LookupResult.found { price := some 10, stock := some 5 }
  else if pid = "prod-err" then LookupResult.fault "ConnectionError"
  else LookupResult.notFound

/-- Witness for the C6 theorem: requesting 7 of a product with stock 5, and a
product whose lookup faults. -/
theorem per_item_error_isolation_witness :
    wCatalogFault "prod-2" =
      LookupResult.found { price := some 10, stock := some 5 } ∧
    ({ price := some 10, stock := some 5 } : Product).stock = some 5 ∧
    (5 : Int) < 7 ∧
    wCatalogFault "prod-err" = LookupResult.fault "ConnectionError" ∧
    item_catalog_checks wCatalogFault 1 "prod-err" 7 (some 12) =
      [VError.lookupError 1 "ConnectionError"] :=
  ⟨rfl, rfl, by decide, rfl,
    (per_item_error_isolation wCatalogFault 1 [] [] "prod-2" "prod-err" 7 5
      { price := some 10, stock := some 5 } 12 "ConnectionError"
      rfl rfl (by decide) rfl).2.2⟩

/-- The mock gateway's outcome status is always one of the two values. -/
theorem process_payment_status_cases (hashHex : String → String) (g : Gateway)
    (oid uid : String) (amount : Rat) :
    (process_payment hashHex g oid uid amount).status = "success" ∨
    (process_payment hashHex g oid uid amount).status = "failed" := by
  cases hg : g.isSuccessful <;> simp [process_payment, hg]

/-- C7: The validator handler raises instead of returning exactly when the
validation error list is non-empty — so every envelope it returns has
`validationResult.isValid = true` — and the payment handler raises exactly
when the payment outcome is the failure status — so every envelope it
returns carries a successful paymentResult. -/
theorem stage_boundary_raise_iff (cat : Catalog) (ctx : Context)
    (event pevent : Envelope) (hashHex : String → String) (g : Gateway)
    (amount : Rat) (hamt : getAmount pevent.totalAmount = some amount) :
    ((∃ msg, validate_lambda_handler cat ctx event = Except.error msg) ↔
      validation_errors cat event ≠ []) ∧
    (∀ out, validate_lambda_handler cat ctx event = Except.ok out →
      ∃ vr, out.validationResult = some vr ∧ vr.isValid = true) ∧
    ((∃ msg, process_payment_lambda_handler hashHex g pevent = Except.error msg)
      ↔ (process_payment hashHex g (fieldStr pevent.orderId)
          (fieldStr pevent.userId) amount).status = "failed") ∧
    (∀ out, process_payment_lambda_handler hashHex g pevent = Except.ok out →
      ∃ pr, out.paymentResult = some pr ∧ pr.status = "success") := by
  refine ⟨?_, ?_, ?_, ?_⟩
  · rcases h : validation_errors cat event with _ | ⟨e, es⟩
    · simp [validate_lambda_handler, h]
    · simp [validate_lambda_handler, h]
  · intro out hout
    simp only [validate_lambda_handler] at hout
    split at hout
    · rename_i hempty
      rw [Except.ok.injEq] at hout
      subst hout
      exact ⟨_, rfl, hempty⟩
    · exact absurd hout (by simp)
  · constructor
    · rintro ⟨msg, hmsg⟩
      simp only [process_payment_lambda_handler, hamt] at hmsg
      split at hmsg
      · exact absurd hmsg (by simp)
      · rename_i hns
        rcases process_payment_status_cases hashHex g (fieldStr pevent.orderId)
            (fieldStr pevent.userId) amount with h | h
        · exact absurd h hns
        · exact h
    · intro h
      refine ⟨"Payment failed", ?_⟩
      simp only [process_payment_lambda_handler, hamt]
      rw [if_neg]
      rw [h]
      decide
  · intro out hout
    simp only [process_payment_lambda_handler, hamt] at hout
    split at hout
    · rename_i hs
      rw [Except.ok.injEq] at hout
      subst hout
      exact ⟨_, rfl, hs⟩
    · exact absurd hout (by simp)

/-- The Lambda context used by the concrete witnesses. -/
def wContext : Context :=
  { requestId := "req-1", functionName := "validate-order" }

/-- Abstract SHA-256 hex digest used by the concrete witnesses. -/
def wHash : String → String := fun _ => "0123456789abcdef0123"

/-- A gateway draw that fails with the third enumerated reason. -/
def wGatewayFail : Gateway :=
  { isSuccessful := false, reasonIndex := 2,
    timestamp := "1700000000000", now := "2024-01-16T10:00:00Z" }

/-- Witness for the C7 theorem: on a failing gateway draw the payment handler
raises. -/
theorem stage_boundary_raise_iff_witness :
    getAmount wOrder2.totalAmount = some 24 ∧
    ((∃ msg, process_payment_lambda_handler wHash wGatewayFail wOrder2 =
        Except.error msg) ↔
      (process_payment wHash wGatewayFail (fieldStr wOrder2.orderId)
        (fieldStr wOrder2.userId) 24).status = "failed") :=
  ⟨rfl, (stage_boundary_raise_iff wCatalog wContext wOrder2 wOrder2 wHash
    wGatewayFail 24 rfl).2.2.1⟩

/-- C8: Each stage's output envelope is its input envelope with exactly one
new key appended (`validationResult` for the validator, `paymentResult` for
the payment processor); every pre-existing field, including `items` and
`totalAmount`, is unchanged, and no stage overwrites a result field written
by an earlier stage. -/
theorem envelope_append_only (cat : Catalog) (ctx : Context)
    (event pevent : Envelope) (hashHex : String → String) (g : Gateway)
    (hv : event.validationResult = none) (hp : pevent.paymentResult = none) :
    (∀ out, validate_lambda_handler cat ctx event = Except.ok out →
      out.orderId = event.orderId ∧ out.userId = event.userId ∧
      out.items = event.items ∧ out.totalAmount = event.totalAmount ∧
      out.paymentResult = event.paymentResult ∧
      event.validationResult = none ∧ out.validationResult ≠ none) ∧
    (∀ out, process_payment_lambda_handler hashHex g pevent = Except.ok out →
      out.orderId = pevent.orderId ∧ out.userId = pevent.userId ∧
      out.items = pevent.items ∧ out.totalAmount = pevent.totalAmount ∧
      out.validationResult = pevent.validationResult ∧
      pevent.paymentResult = none ∧ out.paymentResult ≠ none) := by
  constructor
  · intro out hout
    simp only [validate_lambda_handler] at hout
    split at hout
    · rw [Except.ok.injEq] at hout
      rw [← hout]
      simp [hv]
    · exact absurd hout (by simp)
  · intro out hout
    simp only [process_payment_lambda_handler] at hout
    split at hout
    · exact absurd hout (by simp)
    · split at hout
      · rw [Except.ok.injEq] at hout
        rw [← hout]
        simp [hp]
      · exact absurd hout (by simp)

/-- A structurally and catalog-wise valid order: one `prod-1` item, quantity
2, claimed price 10 (the catalog price), claimed total 20. -/
def wOrderValid : Envelope :=
  { orderId := .val "order-1", userId := .val "user-1",
    items := .list [{ productId := some "prod-1", quantity := some (.ok 2),
                      price := some 10 }],
    totalAmount := .val 20, validationResult := none, paymentResult := none }

/-- The valid order produces no validation errors. -/
theorem wOrderValid_no_errors : validation_errors wCatalog wOrderValid = [] := by
  have htol : ¬(tolerance < 0) := by
    rw [tolerance]
    norm_num
  have h1 : validate_required_fields wOrderValid = [] := by
    simp [validate_required_fields, wOrderValid, fieldMissing, itemsMissing]
  have h2 : validate_items wCatalog wOrderValid.itemsList = [] := by
    simp [validate_items, validate_items_from, validate_item,
      item_catalog_checks, wCatalog, wOrderValid, Envelope.itemsList, htol]
  have h3 : validate_total_amount wOrderValid = [] := by
    have hc : computeTotal wOrderValid.itemsList = some 20 := by
      norm_num [computeTotal, computeTotalFrom, wOrderValid, Envelope.itemsList]
    have ht : totalAmountVal wOrderValid = some 20 := rfl
    unfold validate_total_amount
    rw [hc, ht]
    simp [htol]
  simp [validation_errors, h1, h2, h3]

/-- The validation result the validator attaches to the valid order. -/
def wValidationResult : ValidationResult :=
  { isValid := true, errors := [], validatedAt := "req-1",
    validatedBy := "validate-order" }

/-- The validated envelope returned for the valid order. -/
def wOrderValidated : Envelope :=
  { wOrderValid with validationResult := some wValidationResult }

/-- Witness for the C8 theorem: the validator's output on the valid order
keeps its `orderId` unchanged. -/
theorem envelope_append_only_witness :
    wOrderValid.validationResult = none ∧
    wOrderValid.paymentResult = none ∧
    wOrderValidated.orderId = wOrderValid.orderId := by
  refine ⟨rfl, rfl, ?_⟩
  have hok : validate_lambda_handler wCatalog wContext wOrderValid =
      Except.ok wOrderValidated := by
    simp [validate_lambda_handler, wOrderValid_no_errors, wOrderValidated,
      wValidationResult, wContext]
  exact ((envelope_append_only wCatalog wContext wOrderValid wOrderValid
    wHash wGatewayFail rfl rfl).1 wOrderValidated hok).1

/-- If no item carries a `price` key, the recomputation loop returns its
accumulator unchanged. -/
theorem computeTotalFrom_no_price (acc : Rat) (items : List Item)
    (h : items.all (fun it => it.price.isNone) = true) :
    computeTotalFrom acc items = some acc := by
  induction items generalizing acc with
  | nil => simp [computeTotalFrom]
  | cons it rest ih =>
    simp only [List.all_cons, Bool.and_eq_true] at h
    obtain ⟨h1, h2⟩ := h
    have hp : it.price = none := Option.isNone_iff_eq_none.mp h1
    rcases hq : it.quantity with _ | q
    · simp [computeTotalFrom, hp, hq, ih _ h2]
    · cases q <;> simp [computeTotalFrom, hp, hq, ih _ h2]

/-- Envelope with one unpriced item and claimed total -1. -/
def cexNegTotal : Envelope :=
  { orderId := .val "order-1", userId := .val "user-1",
    items := .list [{ productId := some "prod-1", quantity := some (.ok 1),
                      price := none }],
    totalAmount := .val (-1), validationResult := none, paymentResult := none }

/-- C10 counterexample: an envelope whose single item has no price and whose
claimed total is -1 (which is at most 0.01) is still reported as a total
mismatch against the recomputed total 0. -/
theorem negative_total_mismatch_cex :
    cexNegTotal.itemsList =
      [{ productId := some "prod-1", quantity := some (.ok 1), price := none }] ∧
    totalAmountVal cexNegTotal = some (-1) ∧
    ((-1 : Rat) ≤ 1 / 100) ∧
    validate_total_amount cexNegTotal = [VError.totalMismatch 0 (-1)] := by
  refine ⟨rfl, rfl, by norm_num, ?_⟩
  have hc : computeTotal cexNegTotal.itemsList = some 0 := by
    simp [computeTotal, computeTotalFrom, cexNegTotal, Envelope.itemsList]
  have ht : totalAmountVal cexNegTotal = some (-1) := rfl
  unfold validate_total_amount
  rw [hc, ht]
  norm_num [tolerance]

/-- C10 amended: for every envelope none of whose items carries a price, the
recomputed total is 0.0 and phase 3 passes if and only if the absolute value
of the claimed totalAmount is at most 0.01 — any claimed total of larger
absolute value is reported as a mismatch against an expected total of 0. -/
theorem no_priced_items_total (order : Envelope) (t : Rat)
    (hnp : order.itemsList.all (fun it => it.price.isNone) = true)
    (ht : totalAmountVal order = some t) :
    computeTotal order.itemsList = some 0 ∧
    (validate_total_amount order = [] ↔ |t| ≤ tolerance) ∧
    (tolerance < |t| →
      validate_total_amount order = [VError.totalMismatch 0 t]) := by
  have hc : computeTotal order.itemsList = some 0 :=
    computeTotalFrom_no_price 0 _ hnp
  refine ⟨hc, ?_, ?_⟩
  · rcases le_or_lt |t| tolerance with h | h
    · simp [validate_total_amount, hc, ht, zero_sub, abs_neg, not_lt.mpr h, h]
    · simp [validate_total_amount, hc, ht, zero_sub, abs_neg, h, not_le.mpr h]
  · intro h
    simp [validate_total_amount, hc, ht, zero_sub, abs_neg, h]

/-- Envelope with one unpriced item and claimed total 0. -/
def wNoPrices : Envelope :=
  { orderId := .val "order-1", userId := .val "user-1",
    items := .list [{ productId := some "prod-1", quantity := some (.ok 1),
                      price := none }],
    totalAmount := .val 0, validationResult := none, paymentResult := none }

/-- Witness for the C10 amended theorem. -/
theorem no_priced_items_total_witness :
    wNoPrices.itemsList.all (fun it => it.price.isNone) = true ∧
    totalAmountVal wNoPrices = some 0 ∧
    computeTotal wNoPrices.itemsList = some 0 :=
  ⟨rfl, rfl, (no_priced_items_total wNoPrices 0 rfl rfl).1⟩

end ECom
